import Mathlib

/-!
Shallow embedding of `imxrt1052_can_utility.py`, a host-side utility that
discovers the serial ports of an I.MX RT1052 CAN add-on card, configures two
virtual CAN interfaces over a management serial port, and runs a send /
receive / loopback session loop with guaranteed teardown.

Modelling conventions:
- Pure functions of the script (`inc_dec_data_string`, `get_device_port`)
  become Lean functions; `get_device_port` receives the enumerated port list
  (`serial.tools.list_ports.comports()`) as an explicit argument, and pyserial
  sorts `ListPortInfo` objects by their `device` field, modelled with a stable
  insertion sort by `device`.
- Side-effecting code becomes a trace of `Action` values.  `print` logging is
  not modelled as an action (it carries no device interaction); a bare read of
  pending serial input is `drainRead`, and the drain-and-print of the device
  echo in `configure_can` is the single action `drainAndLog`.
- Durations are in milliseconds (`time.sleep(0.1)` is `sleepMs 100`,
  `send(..., timeout=0.2)` carries `200`).
- Statements whose calls may raise (the `finally` block of `main`, the opens
  in the `try` block) are interpreted through a tiny statement language
  `Stmt` with Python exception semantics: a raising call aborts the statement
  sequence unless a `try/except: pass` swallows it.  Which concrete call
  raises is an input (`FailEnv` / the open-failure flags of `SessionEnv`).
- The unbounded `while True` loop is given fuel: exhausting the fuel is the
  `KeyboardInterrupt` arriving between iterations.
- `datetime.now().timestamp()` only stamps the frame report; the timestamp
  field is not part of the modelled message (no claim depends on it).
-/

namespace ImxrtCan

/-- Vendor ID and Product ID assigned by the MCU vendor (global of the script). -/
def MCU_VID_PID : String := "353F:A103"

/-- `valid_bit_rates = [10, 20, 50, 100, 125, 250, 500, 750, 1000]` (kbps). -/
def valid_bit_rates : List Nat := [10, 20, 50, 100, 125, 250, 500, 750, 1000]

/-- `inc_dec_data_string(number, is_increment, low=0, high=9)`: oscillating
data-string generator.  The Python default arguments `low=0, high=9` are
passed explicitly at every call site of this embedding. -/
def inc_dec_data_string (number : Int) (is_increment : Bool) (low high : Int) :
    Int × Bool × String :=
  let is_increment := if number = low then true
    else if number = high then false
    else is_increment
  let number := if is_increment then number + 1 else number - 1
  (number, is_increment, "hello_" ++ toString number)

/-- One entry of `serial.tools.list_ports.comports()`: the fields of
pyserial `ListPortInfo` that the script reads. -/
structure PortInfo where
  device : String
  hwid : String
  location : String
deriving DecidableEq, Repr

/-- Contiguous-sublist test on character lists (Python `needle in hay`). -/
def charsContain (hay needle : List Char) : Bool :=
  match hay with
  | [] => needle.isEmpty
  | _ :: t => needle.isPrefixOf hay || charsContain t needle

/-- Python `needle in hay` substring test on strings. -/
def strContains (hay needle : String) : Bool :=
  charsContain hay.toList needle.toList

/-- Python truthiness of the `location` argument (`None` and the empty
string are falsy). -/
def optTruthy (o : Option String) : Bool :=
  match o with
  | none => false
  | some s => s != ""

/-- Lexicographic less-or-equal on code points, the Python string order. -/
def charsLe : List Char → List Char → Bool
  | [], _ => true
  | _ :: _, [] => false
  | a :: as, b :: bs =>
    if a.toNat < b.toNat then true
    else if b.toNat < a.toNat then false
    else charsLe as bs

/-- `sorted(all_ports)`: pyserial `ListPortInfo.__lt__` compares the
`device` field, and Python sorting is stable. -/
def sorted_ports (ports : List PortInfo) : List PortInfo :=
  List.insertionSort
    (fun a b => charsLe a.device.toList b.device.toList = true) ports

/-- The `for port in ...` loop body of `get_device_port`: return the first
port whose `hwid` contains `dev_id` and whose `location` contains the truthy
`location`; otherwise fall through to `return None`. -/
def find_device_port (dev_id : String) (location : Option String) :
    List PortInfo → Option String
  | [] => none
  | port :: rest =>
    if strContains port.hwid dev_id then
      if optTruthy location && strContains port.location (location.getD "") then
        some port.device
      else
        find_device_port dev_id location rest
    else
      find_device_port dev_id location rest

/-- `get_device_port(dev_id, location=None)`: scan the sorted attached ports
for the target device.  The enumerated port list is an explicit argument. -/
def get_device_port (dev_id : String) (location : Option String)
    (all_ports : List PortInfo) : Option String :=
  find_device_port dev_id location (sorted_ports all_ports)

/-- A CAN message as constructed by the script: `can.Message(arbitration_id=...,
is_extended_id=..., data=...)`; the payload is kept as the string whose UTF-8
encoding the script sends. -/
structure CanMessage where
  arbitration_id : Nat
  is_extended_id : Bool
  data : String
deriving DecidableEq, Repr

/-- Observable device interactions of the script. -/
inductive Action where
  | openSerial (path : String)
  | writeSerial (data : String)
  | sleepMs (ms : Nat)
  | drainRead
  | drainAndLog
  | openBus (channel : String) (bitrate : Nat)
  | busSend (bus : Nat) (msg : CanMessage) (timeoutMs : Nat)
  | busRecv (bus : Nat)
  | resetInputBuffer
  | resetOutputBuffer
  | closeSerial
  | shutdownBus (bus : Nat)
  | exitProcess (code : Nat)
deriving DecidableEq, Repr

/-- A tiny statement language with Python exception semantics, used to
interpret the straight-line blocks of the script whose calls may raise. -/
inductive Stmt where
  | act (a : Action) (fails : Bool)
  | skip
  | seq (s1 s2 : Stmt)
  | ifThen (c : Bool) (body : Stmt)
  | tryCatch (body : Stmt)

/-- Execute a statement: the produced action trace and whether an exception
escaped.  A raising call is attempted (appears in the trace) and aborts the
rest of a sequence; `tryCatch` is `except Exception: pass`. -/
def execStmt : Stmt → List Action × Bool
  | .act a fails => ([a], fails)
  | .skip => ([], false)
  | .seq s1 s2 =>
    let r1 := execStmt s1
    if r1.2 then r1
    else
      let r2 := execStmt s2
      (r1.1 ++ r2.1, r2.2)
  | .ifThen c body => if c then execStmt body else ([], false)
  | .tryCatch body => ((execStmt body).1, false)

/-- `configure_can(port, interface, mode, baud)` as a statement sequence:
two command writes, each followed by `time.sleep(0.1)`, then
`print(port.read(port.inWaiting()).decode())`. -/
def configure_can_stmt (interface mode baud : String) : Stmt :=
  .seq (.act (.writeSerial ("set can-mode " ++ interface ++ " " ++ mode ++ "\r\n")) false)
    (.seq (.act (.sleepMs 100) false)
      (.seq (.act (.writeSerial ("set can-baudrate " ++ interface ++ " " ++ baud ++ "\r\n")) false)
        (.seq (.act (.sleepMs 100) false)
          (.act .drainAndLog false))))

/-- The action trace of one `configure_can` invocation. -/
def configure_can (interface mode baud : String) : List Action :=
  (execStmt (configure_can_stmt interface mode baud)).1

/-- Which calls of the `finally` block of `main` raise, an input of the
teardown model (the Python code does not control this; the device does). -/
structure FailEnv where
  resetInputFails : Bool
  resetOutputFails : Bool
  closeFails : Bool
  bus1ShutdownFails : Bool
  bus2ShutdownFails : Bool
deriving DecidableEq, Repr

/-- The `finally` block of `main`, statement for statement:
`time.sleep(1)`; `if port and port.is_open:` a `try`-guarded
`reset_input_buffer` / `reset_output_buffer` / `close` with
`except Exception: pass`; `if bus1: bus1.shutdown()`;
`if bus2: bus2.shutdown()`.  The two `shutdown` calls are not guarded in the
source. -/
def finally_block (env : FailEnv) (portOpen bus1Open bus2Open : Bool) : Stmt :=
  .seq (.act (.sleepMs 1000) false)
    (.seq (.ifThen portOpen
        (.tryCatch
          (.seq (.act .resetInputBuffer env.resetInputFails)
            (.seq (.act .resetOutputBuffer env.resetOutputFails)
              (.act .closeSerial env.closeFails)))))
      (.seq (.ifThen bus1Open (.act (.shutdownBus 1) env.bus1ShutdownFails))
        (.ifThen bus2Open (.act (.shutdownBus 2) env.bus2ShutdownFails))))

/-- Executed teardown: the attempted cleanup actions and whether an
exception escaped the `finally` block. -/
def teardown (env : FailEnv) (portOpen bus1Open bus2Open : Bool) :
    List Action × Bool :=
  execStmt (finally_block env portOpen bus1Open bus2Open)

/-- Declarative description of the control-port cleanup attempts: the calls
made inside the guarded `try` of the `finally` block, up to the first one
that raises (the raise itself is swallowed). -/
def portCleanupTrace (env : FailEnv) : List Action :=
  Action.resetInputBuffer ::
    (if env.resetInputFails then []
     else Action.resetOutputBuffer ::
       (if env.resetOutputFails then [] else [Action.closeSerial]))

/-- The session mode (`argparse` restricts `-m` to these three choices). -/
inductive Mode where
  | send
  | recv
  | loopback
deriving DecidableEq, Repr

/-- The `while True:` loop of `main` with fuel; running out of fuel is the
`KeyboardInterrupt` arriving between iterations.  Each `send` / `loopback`
iteration calls `inc_dec_data_string` (with the Python defaults `low=0,
high=9`), builds `can.Message(arbitration_id=0x123, is_extended_id=True,
data=data.encode())`, and paces with `time.sleep(0.1)`. -/
def runLoop (mode : Mode) (number : Int) (is_increment : Bool) :
    Nat → List Action
  | 0 => []
  | fuel + 1 =>
    match mode with
    | .send =>
      let r := inc_dec_data_string number is_increment 0 9
      Action.busSend 1 ⟨0x123, true, r.2.2⟩ 200 :: Action.sleepMs 100 ::
        runLoop mode r.1 r.2.1 fuel
    | .recv =>
      Action.busRecv 1 :: runLoop mode number is_increment fuel
    | .loopback =>
      let r := inc_dec_data_string number is_increment 0 9
      Action.busSend 1 ⟨0x123, true, r.2.2⟩ 200 :: Action.busRecv 2 ::
        Action.sleepMs 100 :: runLoop mode r.1 r.2.1 fuel

/-- Inputs of a session run that are outside the program text: the attached
ports, which of the three opens raises, and when the user interrupts. -/
structure SessionEnv where
  ports : List PortInfo
  openSerialFails : Bool
  openBus1Fails : Bool
  openBus2Fails : Bool
  interruptAtIter : Nat
  fail : FailEnv
deriving DecidableEq, Repr

/-- `if can1_port: bus1 = can.Bus(...)` and `if can2_port: bus2 = can.Bus(...)`:
returns `(actions, raised, bus1Open, bus2Open)`. -/
def openBuses (bit_rate : Nat) (can1 can2 : Option String) (env : SessionEnv) :
    List Action × Bool × Bool × Bool :=
  if optTruthy can1 then
    let a1 : List Action := [Action.openBus (can1.getD "") (bit_rate * 1000)]
    if env.openBus1Fails then (a1, true, false, false)
    else if optTruthy can2 then
      let a2 := a1 ++ [Action.openBus (can2.getD "") (bit_rate * 1000)]
      if env.openBus2Fails then (a2, true, true, false)
      else (a2, false, true, true)
    else (a1, false, true, false)
  else if optTruthy can2 then
    let a2 : List Action := [Action.openBus (can2.getD "") (bit_rate * 1000)]
    if env.openBus2Fails then (a2, true, false, false)
    else (a2, false, false, true)
  else ([], false, false, false)

/-- The `try` block of `main`: open the management serial port, wake and
drain the terminal, run `configure_can` for VCAN1 and VCAN2, open the buses,
then enter the loop.  Returns `(actions, portOpen, bus1Open, bus2Open)`;
`KeyboardInterrupt` and other exceptions both fall through to `finally`. -/
def tryBody (mode : Mode) (bit_rate : Nat) (mgmt : String)
    (can1 can2 : Option String) (env : SessionEnv) :
    List Action × Bool × Bool × Bool :=
  if env.openSerialFails then ([Action.openSerial mgmt], false, false, false)
  else
    let pre : List Action :=
      Action.openSerial mgmt :: Action.writeSerial "\r\n" ::
        Action.sleepMs 100 :: Action.drainRead ::
        (configure_can "VCAN1" "slcan" (toString bit_rate) ++
         configure_can "VCAN2" "slcan" (toString bit_rate))
    let buses := openBuses bit_rate can1 can2 env
    if buses.2.1 then (pre ++ buses.1, true, buses.2.2.1, buses.2.2.2)
    else
      (pre ++ buses.1 ++ runLoop mode 0 true env.interruptAtIter,
       true, buses.2.2.1, buses.2.2.2)

/-- `main()` as a trace function: bitrate validation, port resolution for the
location markers `.0` / `.2` / `.4`, presence validation (`sys.exit(1)` on
failure, before anything is opened), then the `try` body followed by the
`finally` teardown. -/
def mainTrace (mode : Mode) (bit_rate : Nat) (env : SessionEnv) : List Action :=
  let mgmt_port := get_device_port MCU_VID_PID (some ".0") env.ports
  let can1_port := get_device_port MCU_VID_PID (some ".2") env.ports
  let can2_port := get_device_port MCU_VID_PID (some ".4") env.ports
  if !(valid_bit_rates.contains bit_rate) then [Action.exitProcess 1]
  else if !(optTruthy mgmt_port) then [Action.exitProcess 1]
  else if mode == Mode.loopback && !(optTruthy can1_port && optTruthy can2_port) then
    [Action.exitProcess 1]
  else if (mode == Mode.send || mode == Mode.recv)
      && !(optTruthy can1_port && optTruthy can2_port) then
    [Action.exitProcess 1]
  else
    let body := tryBody mode bit_rate (mgmt_port.getD "") can1_port can2_port env
    body.1 ++ (teardown env.fail body.2.1 body.2.2.1 body.2.2.2).1

/-! ## Theorems -/

/-- Claim C8: calling the oscillating payload generator with
`(number=9, is_increment=true, low=0, high=9)` returns exactly
`(8, false, "hello_8")`: at the high boundary the direction flips to
decrement before the counter is updated. -/
theorem c8_oscillator_flip_at_high :
    inc_dec_data_string 9 true 0 9 = (8, false, "hello_8") := by
  decide

/-- The scan loop of `get_device_port`, with a truthy location, returns the
head of the list filtered by both substring tests. -/
theorem find_device_port_eq_filter (dev_id loc : String) (hloc : loc ≠ "") :
    ∀ l : List PortInfo,
      find_device_port dev_id (some loc) l =
        ((l.filter fun p => strContains p.hwid dev_id &&
            strContains p.location loc).head?).map (fun p => p.device) := by
  intro l
  induction l with
  | nil => rfl
  | cons p rest ih =>
    have htruthy : optTruthy (some loc) = true := by
      simp [optTruthy, hloc]
    cases h1 : strContains p.hwid dev_id with
    | false => simp [find_device_port, h1, ih, List.filter]
    | true =>
      cases h2 : strContains p.location loc with
      | false => simp [find_device_port, h1, h2, htruthy, ih, List.filter]
      | true => simp [find_device_port, h1, h2, htruthy, List.filter]

/-- Claim C2: for every device signature and port list, `get_device_port`
with a non-empty location marker returns the first port, in the sorted order
of the port list, whose hardware id contains the signature token and whose
location contains the marker substring; `none` when nothing matches both
filters. -/
theorem c2_resolver_first_match (dev_id loc : String) (hloc : loc ≠ "")
    (ports : List PortInfo) :
    get_device_port dev_id (some loc) ports =
      (((sorted_ports ports).filter fun p => strContains p.hwid dev_id &&
          strContains p.location loc).head?).map (fun p => p.device) := by
  unfold get_device_port
  exact find_device_port_eq_filter dev_id loc hloc (sorted_ports ports)

/-- Witness for C2 at a concrete two-port list. -/
theorem c2_resolver_first_match_witness :
    get_device_port MCU_VID_PID (some ".2")
        [⟨"COM5", "USB VID:PID=353F:A103", "1-1.4"⟩,
         ⟨"COM4", "USB VID:PID=353F:A103", "1-1.2"⟩] =
      (((sorted_ports
            [⟨"COM5", "USB VID:PID=353F:A103", "1-1.4"⟩,
             ⟨"COM4", "USB VID:PID=353F:A103", "1-1.2"⟩]).filter
          fun p => strContains p.hwid MCU_VID_PID &&
            strContains p.location ".2").head?).map (fun p => p.device) :=
  c2_resolver_first_match MCU_VID_PID ".2" (by decide)
    [⟨"COM5", "USB VID:PID=353F:A103", "1-1.4"⟩,
     ⟨"COM4", "USB VID:PID=353F:A103", "1-1.2"⟩]

/-- Claim C10: with the `location` argument omitted (`None`) or otherwise
falsy (the empty string), `get_device_port` returns `None` for every device
id and port list, even when hardware ids contain the device id token. -/
theorem c10_falsy_location_returns_none (dev_id : String) (loc : Option String)
    (ports : List PortInfo) (h : loc = none ∨ loc = some "") :
    get_device_port dev_id loc ports = none := by
  have ht : optTruthy loc = false := by
    rcases h with h | h <;> simp [h, optTruthy]
  unfold get_device_port
  generalize sorted_ports ports = l
  induction l with
  | nil => rfl
  | cons p rest ih => simp [find_device_port, ht, ih]

/-- Witness for C10: a port whose hardware id contains the token is still
not returned when the location is `None`. -/
theorem c10_falsy_location_returns_none_witness :
    ((none : Option String) = none ∨ (none : Option String) = some "") ∧
      get_device_port "353F:A103" none
        [⟨"COM3", "USB VID:PID=353F:A103", "1-1.0"⟩] = none :=
  ⟨Or.inl rfl,
    c10_falsy_location_returns_none "353F:A103" none
      [⟨"COM3", "USB VID:PID=353F:A103", "1-1.0"⟩] (Or.inl rfl)⟩

/-- Claim C4: for every bitrate outside `valid_bit_rates`, `main` exits with
status 1 before the control port is opened and before any device interaction:
the whole trace is the single `exitProcess 1`. -/
theorem c4_invalid_bitrate_rejected (mode : Mode) (bit_rate : Nat)
    (env : SessionEnv) (h : bit_rate ∉ valid_bit_rates) :
    mainTrace mode bit_rate env = [Action.exitProcess 1] := by
  simp [mainTrace, h]

/-- Witness for C4 at bitrate 3 kbps. -/
theorem c4_invalid_bitrate_rejected_witness :
    3 ∉ valid_bit_rates ∧
      mainTrace Mode.send 3
          ⟨[], false, false, false, 0, ⟨false, false, false, false, false⟩⟩ =
        [Action.exitProcess 1] :=
  ⟨by decide,
    c4_invalid_bitrate_rejected Mode.send 3
      ⟨[], false, false, false, 0, ⟨false, false, false, false, false⟩⟩
      (by decide)⟩

/-- Claim C3: for every requested mode, if the channel-1 path, the channel-2
path, or the management path is unresolved, `main` exits with status 1 during
validation: the whole trace is the single `exitProcess 1`, so no serial port
or CAN bus handle is ever opened. -/
theorem c3_missing_port_rejected (mode : Mode) (bit_rate : Nat)
    (env : SessionEnv)
    (h : get_device_port MCU_VID_PID (some ".2") env.ports = none ∨
         get_device_port MCU_VID_PID (some ".4") env.ports = none ∨
         get_device_port MCU_VID_PID (some ".0") env.ports = none) :
    mainTrace mode bit_rate env = [Action.exitProcess 1] := by
  cases mode <;> rcases h with h | h | h <;> simp [mainTrace, h, optTruthy]

/-- Witness for C3: an empty port list resolves no channel, so a send
session exits at validation. -/
theorem c3_missing_port_rejected_witness :
    (get_device_port MCU_VID_PID (some ".2") ([] : List PortInfo) = none ∨
       get_device_port MCU_VID_PID (some ".4") ([] : List PortInfo) = none ∨
       get_device_port MCU_VID_PID (some ".0") ([] : List PortInfo) = none) ∧
      mainTrace Mode.send 1000
          ⟨[], false, false, false, 0, ⟨false, false, false, false, false⟩⟩ =
        [Action.exitProcess 1] :=
  ⟨Or.inl rfl,
    c3_missing_port_rejected Mode.send 1000
      ⟨[], false, false, false, 0, ⟨false, false, false, false, false⟩⟩
      (Or.inl rfl)⟩

/-- Range preservation of the oscillating generator. -/
theorem inc_dec_range (n l h : Int) (b : Bool) (hlh : l < h)
    (h1 : l ≤ n) (h2 : n ≤ h) :
    l ≤ (inc_dec_data_string n b l h).1 ∧ (inc_dec_data_string n b l h).1 ≤ h := by
  unfold inc_dec_data_string
  by_cases he : n = l
  · simp only [he, if_pos rfl]
    simp only [if_true]
    omega
  · by_cases hh : n = h
    · have hne : ¬(h = l) := by omega
      subst hh
      simp [hne]
      omega
    · cases b <;> simp [he, hh] <;> omega

/-- Claim C9: with `low < high` and the input counter in `[low, high]`, the
counter returned by `inc_dec_data_string` is again in `[low, high]`; with the
default bounds `0..9` every generated payload is `hello_` followed by a
single decimal digit — 7 characters, all ASCII, hence 7 bytes once encoded,
below the 8-byte CAN payload maximum. -/
theorem c9_generator_range (number low high : Int) (i : Bool)
    (hlh : low < high) (h1 : low ≤ number) (h2 : number ≤ high) :
    (low ≤ (inc_dec_data_string number i low high).1 ∧
       (inc_dec_data_string number i low high).1 ≤ high) ∧
      ∀ (m : Int) (j : Bool), 0 ≤ m → m ≤ 9 →
        ((inc_dec_data_string m j 0 9).2.2).length = 7 := by
  refine ⟨inc_dec_range number low high i hlh h1 h2, ?_⟩
  intro m j hm0 hm9
  have hstr : (inc_dec_data_string m j 0 9).2.2 =
      "hello_" ++ toString ((inc_dec_data_string m j 0 9).1) := rfl
  obtain ⟨ha, hb⟩ := inc_dec_range m 0 9 j (by omega) hm0 hm9
  rw [hstr]
  generalize hg : (inc_dec_data_string m j 0 9).1 = r at ha hb
  interval_cases r <;> decide

/-- Witness for C9 at counter 5, bounds 0..9. -/
theorem c9_generator_range_witness :
    (0:Int) ≤ (inc_dec_data_string 5 true 0 9).1 ∧
      (inc_dec_data_string 5 true 0 9).1 ≤ 9 :=
  (c9_generator_range 5 0 9 true (by decide) (by decide) (by decide)).1

/-- Claim C7: each iteration of the loopback loop builds a frame with fixed
extended arbitration id `0x123` and the current generator payload, sends it
on channel 1 with a 0.2 s timeout, and then receives on channel 2 within the
same iteration; on the first iteration (counter 0, incrementing) the payload
is `hello_1`. -/
theorem c7_loopback_roundtrip :
    (∀ (n : Int) (i : Bool) (f : Nat),
        runLoop Mode.loopback n i (f + 1) =
          Action.busSend 1 ⟨0x123, true, (inc_dec_data_string n i 0 9).2.2⟩ 200 ::
            Action.busRecv 2 :: Action.sleepMs 100 ::
            runLoop Mode.loopback (inc_dec_data_string n i 0 9).1
              (inc_dec_data_string n i 0 9).2.1 f) ∧
      ∀ f : Nat, ∃ rest : List Action,
        runLoop Mode.loopback 0 true (f + 1) =
          Action.busSend 1 ⟨0x123, true, "hello_1"⟩ 200 :: Action.busRecv 2 :: rest := by
  constructor
  · intro n i f
    rfl
  · intro f
    exact ⟨Action.sleepMs 100 :: runLoop Mode.loopback 1 true f, rfl⟩

/-- Claim C5: every `configure_can` invocation writes exactly the
CR-LF-terminated mode-set line, sleeps 100 ms, writes exactly the
baudrate-set line, sleeps 100 ms, and then drains and logs the device echo
without parsing it. -/
theorem c5_configure_can_protocol (interface mode baud : String) :
    configure_can interface mode baud =
      [Action.writeSerial ("set can-mode " ++ interface ++ " " ++ mode ++ "\r\n"),
       Action.sleepMs 100,
       Action.writeSerial ("set can-baudrate " ++ interface ++ " " ++ baud ++ "\r\n"),
       Action.sleepMs 100,
       Action.drainAndLog] := rfl

/-- Counterexample to claim C1 as stated: when the unguarded channel-1
`shutdown()` raises, the channel-2 `shutdown()` is never attempted, so not
every cleanup step is attempted after an earlier failure. -/
theorem c1_counterexample :
    (teardown ⟨false, false, false, true, false⟩ true true true).1 =
        [Action.sleepMs 1000, Action.resetInputBuffer, Action.resetOutputBuffer,
         Action.closeSerial, Action.shutdownBus 1] ∧
      Action.shutdownBus 2 ∉
        (teardown ⟨false, false, false, true, false⟩ true true true).1 := by
  decide

/-- Claim C1 (amended): for every exit of the `try` block the session runs
the `finally` teardown, whose attempted steps are, in order: the settle
delay; if the control port is open, its reset/close calls with any raise
swallowed (so later steps are never skipped by this step); channel-1
shutdown if that handle was opened; channel-2 shutdown if that handle was
opened — except that a raising channel-1 shutdown propagates out of the
`finally` block and skips the channel-2 shutdown. -/
theorem c1_teardown_best_effort :
    (∀ (fenv : FailEnv) (portOpen b1 b2 : Bool),
        (teardown fenv portOpen b1 b2).1 =
          Action.sleepMs 1000 ::
            ((if portOpen then portCleanupTrace fenv else []) ++
             (if b1 then [Action.shutdownBus 1] else []) ++
             (if b1 && fenv.bus1ShutdownFails then []
              else if b2 then [Action.shutdownBus 2] else []))) ∧
      ∀ (mode : Mode) (bit_rate : Nat) (env : SessionEnv),
        mainTrace mode bit_rate env = [Action.exitProcess 1] ∨
          ∃ (pre : List Action) (portOpen b1 b2 : Bool),
            mainTrace mode bit_rate env =
              pre ++ (teardown env.fail portOpen b1 b2).1 := by
  constructor
  · rintro ⟨a, b, c, d, e⟩ portOpen b1 b2
    cases a <;> cases b <;> cases c <;> cases d <;> cases e <;>
      cases portOpen <;> cases b1 <;> cases b2 <;> rfl
  · intro mode bit_rate env
    simp only [mainTrace]
    split
    · exact Or.inl rfl
    split
    · exact Or.inl rfl
    split
    · exact Or.inl rfl
    split
    · exact Or.inl rfl
    exact Or.inr ⟨_, _, _, _, rfl⟩

/-- Claim C6: in a send session at 1000 kbps with all three ports resolved
and no open failure, the control port is configured for VCAN1 before VCAN2,
both buses are opened at 1000 * 1000 = 1000000 bps, and every send-loop
iteration sends one frame followed by the 100 ms pacing delay, until the
interrupt; teardown follows. -/
theorem c6_send_scenario (env : SessionEnv)
    (hm : optTruthy (get_device_port MCU_VID_PID (some ".0") env.ports) = true)
    (h1 : optTruthy (get_device_port MCU_VID_PID (some ".2") env.ports) = true)
    (h2 : optTruthy (get_device_port MCU_VID_PID (some ".4") env.ports) = true)
    (hs : env.openSerialFails = false) (hb1 : env.openBus1Fails = false)
    (hb2 : env.openBus2Fails = false) :
    (mainTrace Mode.send 1000 env =
      Action.openSerial ((get_device_port MCU_VID_PID (some ".0") env.ports).getD "") ::
        Action.writeSerial "\r\n" :: Action.sleepMs 100 :: Action.drainRead ::
        (configure_can "VCAN1" "slcan" "1000" ++ configure_can "VCAN2" "slcan" "1000" ++
         [Action.openBus ((get_device_port MCU_VID_PID (some ".2") env.ports).getD "") 1000000,
          Action.openBus ((get_device_port MCU_VID_PID (some ".4") env.ports).getD "") 1000000] ++
         runLoop Mode.send 0 true env.interruptAtIter ++
         (teardown env.fail true true true).1)) ∧
      ∀ (n : Int) (i : Bool) (f : Nat),
        runLoop Mode.send n i (f + 1) =
          Action.busSend 1 ⟨0x123, true, (inc_dec_data_string n i 0 9).2.2⟩ 200 ::
            Action.sleepMs 100 ::
            runLoop Mode.send (inc_dec_data_string n i 0 9).1
              (inc_dec_data_string n i 0 9).2.1 f := by
  refine ⟨?_, fun n i f => rfl⟩
  simp [mainTrace, tryBody, openBuses, hm, h1, h2, hs, hb1, hb2]
  rw [if_pos (show (1000:Nat) ∈ valid_bit_rates by decide)]
  rfl

/-- Witness for C6 at a concrete three-port device, interrupted after one
loop iteration. -/
theorem c6_send_scenario_witness :
    mainTrace Mode.send 1000
        ⟨[⟨"COM3", "USB VID:PID=353F:A103", "1-1.0"⟩,
          ⟨"COM4", "USB VID:PID=353F:A103", "1-1.2"⟩,
          ⟨"COM5", "USB VID:PID=353F:A103", "1-1.4"⟩],
         false, false, false, 1, ⟨false, false, false, false, false⟩⟩ =
      Action.openSerial
          ((get_device_port MCU_VID_PID (some ".0")
              [⟨"COM3", "USB VID:PID=353F:A103", "1-1.0"⟩,
               ⟨"COM4", "USB VID:PID=353F:A103", "1-1.2"⟩,
               ⟨"COM5", "USB VID:PID=353F:A103", "1-1.4"⟩]).getD "") ::
        Action.writeSerial "\r\n" :: Action.sleepMs 100 :: Action.drainRead ::
        (configure_can "VCAN1" "slcan" "1000" ++ configure_can "VCAN2" "slcan" "1000" ++
         [Action.openBus
            ((get_device_port MCU_VID_PID (some ".2")
                [⟨"COM3", "USB VID:PID=353F:A103", "1-1.0"⟩,
                 ⟨"COM4", "USB VID:PID=353F:A103", "1-1.2"⟩,
                 ⟨"COM5", "USB VID:PID=353F:A103", "1-1.4"⟩]).getD "") 1000000,
          Action.openBus
            ((get_device_port MCU_VID_PID (some ".4")
                [⟨"COM3", "USB VID:PID=353F:A103", "1-1.0"⟩,
                 ⟨"COM4", "USB VID:PID=353F:A103", "1-1.2"⟩,
                 ⟨"COM5", "USB VID:PID=353F:A103", "1-1.4"⟩]).getD "") 1000000] ++
         runLoop Mode.send 0 true 1 ++
         (teardown ⟨false, false, false, false, false⟩ true true true).1) :=
  (c6_send_scenario
      ⟨[⟨"COM3", "USB VID:PID=353F:A103", "1-1.0"⟩,
        ⟨"COM4", "USB VID:PID=353F:A103", "1-1.2"⟩,
        ⟨"COM5", "USB VID:PID=353F:A103", "1-1.4"⟩],
       false, false, false, 1, ⟨false, false, false, false, false⟩⟩
      (by decide) (by decide) (by decide) rfl rfl rfl).1

end ImxrtCan
